import Mathlib

/-!
Verification development for the PMS webhook-reconciliation module
(`hotel/pms_systems.py`).

Python strings are embedded as `List Char` (`Str`); machine-level stdlib
services that the module calls but that live outside the translated file
(`json.loads`, `uuid.UUID`, `datetime.strptime`) are abstract function
parameters collected in `Env`.  The Django stores (`hotel/models.py` is not
part of the translated sources) are modelled from the spec as insertion-ordered
lists with integer surrogate keys.
-/

/-- Python `str` is embedded as a list of characters. -/
abbrev Str := List Char

/-- Python `s.lower()`, restricted to the per-character case mapping
(the vendor data in scope is ASCII). -/
def pyLower (s : Str) : Str := s.map Char.toLower

/-- The whitespace set of Python `str.strip()` (ASCII part). -/
def pyIsSpace (c : Char) : Bool :=
  c == ' ' || c == '\t' || c == '\n' || c == '\r' || c == '\x0b' || c == '\x0c'

/-- Python `s.strip()`: drop whitespace from both ends. -/
def pyStrip (s : Str) : Str :=
  ((s.dropWhile pyIsSpace).reverse.dropWhile pyIsSpace).reverse

/-- `startsWithL pat s` is true when `pat` is a prefix of `s`. -/
def startsWithL : Str → Str → Bool
  | [], _ => true
  | _ :: _, [] => false
  | p :: ps, c :: cs => p == c && startsWithL ps cs

/-- Python `pat in s` (substring containment). -/
def containsL (pat : Str) : Str → Bool
  | [] => pat.isEmpty
  | c :: cs => startsWithL pat (c :: cs) || containsL pat cs

/-- Modelled from the spec: the `Language` enum of `hotel/models.py` (not among
the translated sources) is a fixed set of lowercase language-code strings; a
guest's language is one of them or null.  Here a language value is its code. -/
abbrev Lang := Str

/-- Modelled from the spec: a `Guest` row of `hotel/models.py` — surrogate id,
name, phone (the natural dedup key, possibly suffixed), nullable language. -/
structure Guest where
  id : Nat
  name : Str
  phone : Str
  language : Option Lang
deriving DecidableEq, Repr

/-- Modelled from the spec: the `Guest` table — insertion-ordered rows plus the
next autoincrement id.  `filter(...).first()` takes the first row in this
order; `create` appends. -/
structure GuestStore where
  guests : List Guest
  nextId : Nat
deriving DecidableEq, Repr

/-- `DUPLICATE_PHONE_SUFFIX` of `check_and_resolve_phone_number`. -/
def DUPLICATE_PHONE_SUFFIX : Str := "_-1".toList

/-- `UPDATE_MODES["create"]`. -/
def UPDATE_MODE_CREATE : Nat := 1
/-- `UPDATE_MODES["update"]`. -/
def UPDATE_MODE_UPDATE : Nat := 2
/-- `UPDATE_MODE = UPDATE_MODES["update"]` in the source. -/
def UPDATE_MODE : Nat := 2

/-- `RESULTS["none"]`. -/
def RESULT_NONE : Nat := 0
/-- `RESULTS["create"]`. -/
def RESULT_CREATE : Nat := 1
/-- `RESULTS["update"]`. -/
def RESULT_UPDATE : Nat := 2

/-- Python `guestPhone.replace(DUPLICATE_PHONE_SUFFIX, "")` specialised to the
constant pattern `"_-1"` and empty replacement: every occurrence is removed,
scanning left to right without overlap (exactly `str.replace`). -/
def stripSfx : Str → Str
  | [] => []
  | '_' :: '-' :: '1' :: rest => stripSfx rest
  | c :: cs => c :: stripSfx cs

/-- The largest phone length among the stored guests (0 for the empty store);
any phone strictly longer than this cannot be found by the lookup, which is
what bounds the recursion of `check_and_resolve_phone_number`. -/
def maxPhoneLen (gs : List Guest) : Nat :=
  gs.foldr (fun g m => max g.phone.length m) 0

/-- The body of `check_and_resolve_phone_number`, with an explicit fuel
parameter standing for the remaining recursion depth (the Python source
recurses without a bound; `resolveFuel_isSome` below proves the fuel
`maxPhoneLen + 2` is never exhausted).  Returns the guest, the `RESULTS` code
and the guest store after the call's writes. -/
def resolveFuel : Nat → GuestStore → Str → Str → Option Lang → Option Nat →
    Option (Guest × Nat × GuestStore)
  | 0, _, _, _, _, _ => none
  | fuel + 1, store, guestPhone, guestName, guestLang, guestId =>
    match store.guests.find? (fun g => g.phone == guestPhone) with
    | some dbGuest =>
      -- phone already in the db
      if (pyLower (pyStrip dbGuest.name) != pyLower (pyStrip guestName))
          || (dbGuest.language != guestLang) then
        -- same phone but different name or language: recurse on the
        -- suffixed phone
        if UPDATE_MODE == UPDATE_MODE_CREATE then
          resolveFuel fuel store (guestPhone ++ DUPLICATE_PHONE_SUFFIX)
            guestName guestLang none
        else
          resolveFuel fuel store (guestPhone ++ DUPLICATE_PHONE_SUFFIX)
            guestName guestLang (some dbGuest.id)
      else
        -- same guest: no write
        some (dbGuest, RESULT_NONE, store)
    | none =>
      match guestId with
      | some gid =>
        if UPDATE_MODE == UPDATE_MODE_UPDATE then
          -- relocate the earlier conflicting guest to the suffixed phone,
          -- then create a new guest with the suffix occurrences removed
          let relocated := store.guests.map
            (fun g => if g.id == gid then { g with phone := guestPhone } else g)
          let newGuest : Guest :=
            { id := store.nextId, name := guestName,
              phone := stripSfx guestPhone, language := guestLang }
          some (newGuest, RESULT_UPDATE,
            { guests := relocated ++ [newGuest], nextId := store.nextId + 1 })
        else
          let newGuest : Guest :=
            { id := store.nextId, name := guestName,
              phone := guestPhone, language := guestLang }
          some (newGuest, RESULT_CREATE,
            { guests := store.guests ++ [newGuest], nextId := store.nextId + 1 })
      | none =>
        let newGuest : Guest :=
          { id := store.nextId, name := guestName,
            phone := guestPhone, language := guestLang }
        some (newGuest, RESULT_CREATE,
          { guests := store.guests ++ [newGuest], nextId := store.nextId + 1 })

/-- `check_and_resolve_phone_number(guestPhone, guestName, guestLang, guestId)`
over a guest store.  In the pure store model the catch-all `except` branch of
the source (store failure) cannot fire, so the result is always a guest, a
`RESULTS` code and the updated store.  The recursion is run with fuel
`maxPhoneLen + 2`, which is proved sufficient (`resolveFuel_isSome`). -/
def check_and_resolve_phone_number (store : GuestStore) (guestPhone guestName : Str)
    (guestLang : Option Lang) (guestId : Option Nat) : Guest × Nat × GuestStore :=
  (resolveFuel (maxPhoneLen store.guests + 2) store guestPhone guestName guestLang guestId).getD
    (⟨0, [], [], none⟩, RESULT_NONE, store)

lemma phoneLen_le_maxPhoneLen {g : Guest} {gs : List Guest} (h : g ∈ gs) :
    g.phone.length ≤ maxPhoneLen gs := by
  induction gs with
  | nil => cases h
  | cons a t ih =>
    rcases List.mem_cons.mp h with rfl | hmem
    · exact le_max_left _ _
    · exact le_trans (ih hmem) (le_max_right _ _)

lemma resolveFuel_isSome (fuel : Nat) :
    ∀ (store : GuestStore) (phone name : Str) (lang : Option Lang) (gid : Option Nat),
      1 ≤ fuel → maxPhoneLen store.guests + 2 ≤ fuel + phone.length →
      (resolveFuel fuel store phone name lang gid).isSome = true := by
  induction fuel with
  | zero => intro _ _ _ _ _ h1 _; omega
  | succ f ih =>
    intro store phone name lang gid _ h2
    cases hfind : store.guests.find? (fun g => g.phone == phone) with
    | none =>
      cases gid with
      | none => simp [resolveFuel, hfind]
      | some gid => simp [resolveFuel, hfind, UPDATE_MODE, UPDATE_MODE_UPDATE]
    | some g =>
      have hphone : g.phone = phone := by
        have := List.find?_some hfind
        exact eq_of_beq this
      have hmem : g ∈ store.guests := List.mem_of_find?_eq_some hfind
      have hlen : phone.length ≤ maxPhoneLen store.guests := by
        rw [← hphone]; exact phoneLen_le_maxPhoneLen hmem
      have hf : 1 ≤ f := by omega
      have hlen3 : (phone ++ DUPLICATE_PHONE_SUFFIX).length = phone.length + 3 := by
        simp [DUPLICATE_PHONE_SUFFIX]
      have hrec : maxPhoneLen store.guests + 2
          ≤ f + (phone ++ DUPLICATE_PHONE_SUFFIX).length := by
        rw [hlen3]; omega
      simp only [resolveFuel, hfind]
      split
      · rw [if_neg (by decide)]
        exact ih store _ name lang (some g.id) hf hrec
      · simp

lemma check_eq_resolveFuel (store : GuestStore) (phone name : Str)
    (lang : Option Lang) (gid : Option Nat) :
    resolveFuel (maxPhoneLen store.guests + 2) store phone name lang gid
      = some (check_and_resolve_phone_number store phone name lang gid) := by
  have h := resolveFuel_isSome (maxPhoneLen store.guests + 2) store phone name lang gid
    (by omega) (by omega)
  rw [check_and_resolve_phone_number]
  cases ho : resolveFuel (maxPhoneLen store.guests + 2) store phone name lang gid with
  | none => rw [ho] at h; simp at h
  | some v => simp

lemma containsL_cons_false {pat : Str} {c : Char} {cs : Str}
    (h : containsL pat (c :: cs) = false) :
    startsWithL pat (c :: cs) = false ∧ containsL pat cs = false := by
  rw [containsL, Bool.or_eq_false_iff] at h
  exact h

/-- Removing every `"_-1"` from `l ++ "_-1"` gives back `l` whenever `l` itself
contains no occurrence of `"_-1"` (the pattern cannot overlap itself, so the
only removed occurrence is the appended one). -/
lemma stripSfx_append (l : Str) (h : containsL DUPLICATE_PHONE_SUFFIX l = false) :
    stripSfx (l ++ DUPLICATE_PHONE_SUFFIX) = l := by
  induction l with
  | nil => rfl
  | cons c rest ih =>
    obtain ⟨hs, hrest⟩ := containsL_cons_false h
    have ih' := ih hrest
    rw [List.cons_append]
    by_cases hc : c = '_'
    · subst hc
      cases rest with
      | nil => rfl
      | cons c2 rest2 =>
        by_cases hc2 : c2 = '-'
        · subst hc2
          cases rest2 with
          | nil => rfl
          | cons c3 rest3 =>
            by_cases hc3 : c3 = '1'
            · subst hc3
              simp [startsWithL, DUPLICATE_PHONE_SUFFIX] at hs
            · rw [List.cons_append, List.cons_append] at ih' ⊢
              rw [show stripSfx ('_' :: '-' :: c3 :: (rest3 ++ DUPLICATE_PHONE_SUFFIX))
                    = '_' :: stripSfx ('-' :: c3 :: (rest3 ++ DUPLICATE_PHONE_SUFFIX)) from by
                rw [stripSfx]
                intro rest h1 h2
                injection h2 with e2 h2
                injection h2 with e3 h2
                exact hc3 e3]
              rw [ih']
        · rw [List.cons_append] at ih' ⊢
          rw [show stripSfx ('_' :: c2 :: (rest2 ++ DUPLICATE_PHONE_SUFFIX))
                = '_' :: stripSfx (c2 :: (rest2 ++ DUPLICATE_PHONE_SUFFIX)) from by
            rw [stripSfx]
            intro rest h1 h2
            injection h2 with e2 h2
            exact hc2 e2]
          rw [ih']
    · rw [show stripSfx (c :: (rest ++ DUPLICATE_PHONE_SUFFIX))
            = c :: stripSfx (rest ++ DUPLICATE_PHONE_SUFFIX) from by
        rw [stripSfx]
        intro r h1 h2
        exact hc h1]
      rw [ih']

/-- A parsed JSON value as produced by Python `json.loads` (object keys are
unique after parsing). -/
inductive Json where
  | null
  | bool (b : Bool)
  | num (n : Int)
  | str (s : Str)
  | arr (elems : List Json)
  | obj (fields : List (Str × Json))

/-- Python `d.get(key)` on a parsed JSON value: an object yields its field
(`none` when the key is absent, i.e. Python `None`); calling `.get` on any
non-object raises `AttributeError`, modelled as `Except.error`. -/
def Json.get? : Json → Str → Except Unit (Option Json)
  | .obj fields, key => .ok ((fields.find? (fun f => f.1 == key)).map (fun f => f.2))
  | _, _ => .error ()

/-- A vendor field that must be a string or null in this model: `Json.str`
yields the string, a missing field or JSON null yields Python `None`, and any
other shape is a type failure of the kind the surrounding handlers do not
catch. -/
def asOptStr : Option Json → Except Unit (Option Str)
  | none => .ok none
  | some (.str s) => .ok (some s)
  | some .null => .ok none
  | some _ => .error ()

/-- Python `v == "lit"` where `v` came from `d.get(...)` (equality with a
string is false for `None` and for every non-string value). -/
def optJsonEqStr (v : Option Json) (lit : Str) : Bool :=
  match v with
  | some (.str s) => s == lit
  | _ => false

/-- Modelled from the spec: a `Hotel` row of `hotel/models.py` — local integer
id and the vendor-assigned identifier in canonical form. -/
structure Hotel where
  id : Nat
  pms_hotel_id : Str
deriving DecidableEq, Repr

/-- `Stay.Status` of `hotel/models.py` (values named in the source's status
map). -/
inductive StayStatus where
  | UNKNOWN
  | BEFORE
  | INSTAY
  | AFTER
  | CANCEL
deriving DecidableEq, Repr

/-- The value of `datetime.strptime(s, "%Y-%m-%d").date()`. -/
structure Date where
  year : Nat
  month : Nat
  day : Nat
deriving DecidableEq, Repr

/-- Modelled from the spec: a `Stay` row of `hotel/models.py`.  The vendor
reservation id is the upsert key; the vendor guest id is denormalised
information; both are nullable strings here because the source stores whatever
`dict.get` returned. -/
structure Stay where
  id : Nat
  hotel_id : Nat
  guest_id : Nat
  pms_reservation_id : Option Str
  pms_guest_id : Option Str
  status : StayStatus
  checkin : Date
  checkout : Date
deriving DecidableEq, Repr

/-- The fields written by the `update_or_create` call of `handle_webhook`
(everything except the surrogate id). -/
structure StayData where
  hotel_id : Nat
  guest_id : Nat
  pms_reservation_id : Option Str
  pms_guest_id : Option Str
  status : StayStatus
  checkin : Date
  checkout : Date
deriving DecidableEq, Repr

/-- Modelled from the spec: the persistent store visible to `handle_webhook` —
the `Guest` table and the `Stay` table with its autoincrement counter. -/
structure DB where
  gstore : GuestStore
  stays : List Stay
  stayNextId : Nat
deriving DecidableEq, Repr

/-- Modelled from the spec: `Stay.objects.update_or_create(pms_reservation_id=...,
defaults=...)` — overwrite the fields of the row with the given key, or append
a fresh row. -/
def upsertStay (db : DB) (d : StayData) : DB :=
  if (db.stays.find? (fun st => st.pms_reservation_id == d.pms_reservation_id)).isSome then
    { db with stays := db.stays.map (fun st =>
        if st.pms_reservation_id == d.pms_reservation_id then
          { st with hotel_id := d.hotel_id, guest_id := d.guest_id,
                    pms_reservation_id := d.pms_reservation_id,
                    pms_guest_id := d.pms_guest_id, status := d.status,
                    checkin := d.checkin, checkout := d.checkout }
        else st) }
  else
    let row : Stay :=
      { id := db.stayNextId, hotel_id := d.hotel_id, guest_id := d.guest_id,
        pms_reservation_id := d.pms_reservation_id, pms_guest_id := d.pms_guest_id,
        status := d.status, checkin := d.checkin, checkout := d.checkout }
    { db with stays := db.stays ++ [row], stayNextId := db.stayNextId + 1 }

/-- The two vendor API operations called by `handle_webhook`. -/
inductive Endpoint where
  | reservationDetails
  | guestDetails
deriving DecidableEq, Repr

/-- The external collaborators of the module, as abstract functions:
`loads` is `json.loads` (`none` = `JSONDecodeError`), `parseUUID` is
`uuid.UUID` returning the canonical textual form (`none` = `ValueError` or
`TypeError`), `parseDate` is `datetime.strptime(s, "%Y-%m-%d").date()`
(`none` = `ValueError`), `langValues` is `Language.values`, and `oracle`
answers the n-th attempted call of a vendor endpoint for a given argument
(`Except.error` = the mock API raised `APIError`). -/
structure Env where
  loads : Str → Option Json
  parseUUID : Str → Option Str
  parseDate : Str → Option Date
  langValues : List Str
  oracle : Endpoint → Str → Nat → Except Unit Str

/-- `RETRY` of `handle_webhook`. -/
def RETRY : Nat := 3
/-- `WAIT` of `handle_webhook` (the sleep has no observable effect here). -/
def WAIT : Nat := 1
/-- `DO_PHONE_CHECK` of `handle_webhook`. -/
def DO_PHONE_CHECK : Bool := false

/-- `re.fullmatch(phoneReg, s)` for the pattern the source selects when
`DO_PHONE_CHECK` is false, `"^.` followed by `{0,200}` and `$"`: a full match
exists iff the string has at most 200 characters, none of which is a newline
(`.` does not match `"\n"`).  The strict pattern of the true branch is dead
code under the constant flag and is not modelled. -/
def phoneRegMatches (s : Str) : Bool :=
  s.length ≤ 200 && s.all (fun c => c != '\n')

/-- `api_call_retry(func, param, retry, wait)`.  The pair `(func, param)` is
fixed for the whole retry loop, so the call is modelled by the oracle indexed
with the attempt number; `retry` counts the remaining retries exactly as the
source decrements it, and exhaustion re-raises the last `APIError`. -/
def api_call_retry (oracle : Endpoint → Str → Nat → Except Unit Str)
    (func : Endpoint) (param : Str) (attempt retry wait : Nat) : Except Unit Str :=
  match oracle func param attempt with
  | .ok res => .ok res
  | .error e =>
    match retry with
    | r + 1 => api_call_retry oracle func param (attempt + 1) r wait
    | 0 => .error e

/-- `CleanedWebhookPayload`. -/
structure CleanedWebhookPayload where
  hotel_id : Nat
  data : Json

/-- The `try` block of `PMS_Apaleo.clean_webhook_payload` (everything after
the two raw-text pre-checks); every caught exception becomes `none`. -/
def clean_webhook_payload_body (env : Env) (hotels : List Hotel) (payload : Str) :
    Option CleanedWebhookPayload :=
  match env.loads payload with
  | none => none          -- JSONDecodeError, caught
  | some load =>
    match load.get? ("HotelId".toList) with
    | .error _ => none    -- AttributeError on a non-object, caught
    | .ok pms_hotelId? =>
      match pms_hotelId? with
      | some (.str pms_hotelId) =>
        match env.parseUUID pms_hotelId with
        | none => none    -- ValueError from UUID(...), caught
        | some pmsHotelUuid =>
          match hotels.find? (fun h => h.pms_hotel_id == pmsHotelUuid) with
          | none => none  -- .first() is None, so .id raises, caught
          | some h => some { hotel_id := h.id, data := load }
      | _ => none         -- UUID(None) or UUID(non-string): TypeError, caught

/-- `PMS_Apaleo.clean_webhook_payload(payload)`: the raw-text pre-checks
(`payload is None or len(payload) <= 2`, then `"HotelId" not in payload`),
then the `try` block; the `hotels` argument stands for the `Hotel` table. -/
def clean_webhook_payload (env : Env) (hotels : List Hotel) (payload : Option Str) :
    Option CleanedWebhookPayload :=
  match payload with
  | none => none
  | some p =>
    if p.length ≤ 2 then none
    else if !(containsL ("HotelId".toList) p) then none
    else clean_webhook_payload_body env hotels p

/-- The substring `f-string` `'"HotelId": "{pmsHotelId}"'` checked against the
raw reservation-details text. -/
def hotelNeedle (canon : Str) : Str :=
  ("\x22HotelId\x22: \x22".toList) ++ canon ++ ("\x22".toList)

/-- The first `for event in dataEvents` loop of `handle_webhook` (lines
114-131): keep `ReservationUpdated` events carrying a non-empty reservation
id, fetch their details through `api_call_retry` (an `APIError` that survives
the retries is logged and the event is skipped), discard details whose raw
text does not embed the expected `"HotelId"`, and parse the survivors.
`Except.error` models an exception that only the outermost handler catches
(making `handle_webhook` return false). -/
def fetchEvents (env : Env) (pmsHotelId : Str) : List Json → Except Unit (List Json)
  | [] => .ok []
  | event :: rest =>
    match event.get? ("Value".toList) with
    | .error _ => .error ()      -- a non-dict event: AttributeError
    | .ok eventValue? =>
      match event.get? ("Name".toList) with
      | .error _ => .error ()
      | .ok name? =>
        if optJsonEqStr name? ("ReservationUpdated".toList) then
          match eventValue? with
          | none => .error ()    -- "Value" absent: None.get raises
          | some eventValue =>
            match eventValue.get? ("ReservationId".toList) with
            | .error _ => .error ()
            | .ok rid? =>
              match rid? with
              | none => fetchEvents env pmsHotelId rest          -- continue
              | some (.str rid) =>
                if rid.length == 0 then fetchEvents env pmsHotelId rest
                else
                  match api_call_retry env.oracle .reservationDetails rid 0 RETRY WAIT with
                  | .error _ => fetchEvents env pmsHotelId rest  -- APIError: log, skip
                  | .ok reservationDetails =>
                    if decide (reservationDetails.length > 2)
                        && containsL (hotelNeedle pmsHotelId) reservationDetails then
                      match env.loads reservationDetails with
                      | none => .error ()  -- JSONDecodeError is not caught here
                      | some parsed =>
                        match fetchEvents env pmsHotelId rest with
                        | .error e => .error e
                        | .ok tail => .ok (parsed :: tail)
                    else fetchEvents env pmsHotelId rest
              | some _ => .error ()  -- len() of a non-string id: TypeError
        else
          -- not a ReservationUpdated event: nothing to do
          fetchEvents env pmsHotelId rest

/-- `PMS_Apaleo.pmsStayStatusMap`. -/
def pmsStayStatusMap : List (Str × StayStatus) :=
  [("not_confirmed".toList, .UNKNOWN),
   ("booked".toList, .BEFORE),
   ("in_house".toList, .INSTAY),
   ("checked_out".toList, .AFTER),
   ("cancelled".toList, .CANCEL),
   ("no_show".toList, .UNKNOWN)]

/-- `pmsStayStatusMap.get(key, Stay.Status.UNKNOWN)`. -/
def statusLookup (key : Str) : StayStatus :=
  match pmsStayStatusMap.find? (fun kv => kv.1 == key) with
  | some kv => kv.2
  | none => .UNKNOWN

/-- The second `try` block of the merge loop (lines 192-210): build the
`stayUpdate` dict and upsert the `Stay`.  Every exception raised inside it —
`.lower()` on a missing or non-string `Status`, evaluating the name `guest`
when no iteration has bound it yet (`NameError`), `strptime` on a missing,
non-string or unparseable date — is caught by its `except Exception` and turns
into `continue`, modelled as `none` (the reservation is skipped with the
database untouched, since the upsert is the block's only write). -/
def stayBlock (env : Env) (hotel : Hotel) (reservationData : Json) (db : DB)
    (guest : Option Guest) (pmsGuestId : Option Str) (pmsReservationId : Option Str) :
    Option DB :=
  match reservationData.get? ("Status".toList) with
  | .error _ => none
  | .ok status? =>
    match status? with
    | some (.str status) =>
      let stayStatus := statusLookup (pyLower status)
      -- building the dict evaluates `guest` (NameError when unbound) and the
      -- two strptime calls, in that order
      match guest with
      | none => none
      | some g =>
        match reservationData.get? ("CheckInDate".toList) with
        | .error _ => none
        | .ok checkin? =>
          match checkin? with
          | some (.str ciStr) =>
            match env.parseDate ciStr with
            | none => none
            | some ci =>
              match reservationData.get? ("CheckOutDate".toList) with
              | .error _ => none
              | .ok checkout? =>
                match checkout? with
                | some (.str coStr) =>
                  match env.parseDate coStr with
                  | none => none
                  | some co =>
                    some (upsertStay db
                      { hotel_id := hotel.id, guest_id := g.id,
                        pms_reservation_id := pmsReservationId,
                        pms_guest_id := pmsGuestId, status := stayStatus,
                        checkin := ci, checkout := co })
                | _ => none
          | _ => none
    | _ => none

/-- The `for reservationData in reservationUpdatesList` loop of
`handle_webhook` (lines 147-211).  `prevGuest` and `prevPmsGuestId` model the
Python locals `guest` and `pmsGuestId`, which survive from one iteration to
the next (`none` = not yet bound, so referring to them raises `NameError`).
The loop's first `try` catches only `APIError`; since its `continue` is
commented out in the source, a guest fetch that exhausts its retries falls
through to the stay block with the previous iteration's `guest` and
`pmsGuestId` — and on the first iteration the handler's own print of
`pmsGuestId` raises `NameError`, which only the outermost handler catches.
Returns the final `(success, database)` of `handle_webhook`. -/
def mergeLoop (env : Env) (hotel : Hotel) :
    List Json → DB → Option Guest → Option (Option Str) → Bool × DB
  | [], db, _, _ => (true, db)
  | reservationData :: rest, db, prevGuest, prevPmsGuestId =>
    match reservationData.get? ("ReservationId".toList) with
    | .error _ => (false, db)   -- non-dict detail: AttributeError, outer catch
    | .ok rid? =>
      match asOptStr rid? with
      | .error _ => (false, db) -- non-string vendor id: outside the model's shapes
      | .ok pmsReservationId =>
        match reservationData.get? ("GuestId".toList) with
        | .error _ => (false, db)
        | .ok gid? =>
          match gid? with
          | some (.str guestIdArg) =>
            match api_call_retry env.oracle .guestDetails guestIdArg 0 RETRY WAIT with
            | .error _ =>
              -- except APIError: the print interpolates pmsGuestId
              match prevPmsGuestId with
              | none => (false, db)  -- NameError inside the handler: outer catch
              | some staleGuestId =>
                -- fall through to the stay block with the stale locals
                match stayBlock env hotel reservationData db prevGuest staleGuestId
                    pmsReservationId with
                | some db2 => mergeLoop env hotel rest db2 prevGuest prevPmsGuestId
                | none => mergeLoop env hotel rest db prevGuest prevPmsGuestId
            | .ok guestDetails =>
              match env.loads guestDetails with
              | none => (false, db)  -- JSONDecodeError: only the outer catch sees it
              | some guestObj =>
                match guestObj.get? ("GuestId".toList) with
                | .error _ => (false, db)  -- non-dict guest details
                | .ok pmsGuestIdJson =>
                  match asOptStr pmsGuestIdJson with
                  | .error _ => (false, db)
                  | .ok pmsGuestId =>
                    match guestObj.get? ("Phone".toList) with
                    | .error _ => (false, db)
                    | .ok phoneJson =>
                      match asOptStr phoneJson with
                      | .error _ => (false, db)
                      | .ok guestPhone0 =>
                        match guestObj.get? ("Name".toList) with
                        | .error _ => (false, db)
                        | .ok nameJson =>
                          match asOptStr nameJson with
                          | .error _ => (false, db)
                          | .ok guestName0 =>
                            match guestObj.get? ("Country".toList) with
                            | .error _ => (false, db)
                            | .ok countryJson =>
                              match asOptStr countryJson with
                              | .error _ => (false, db)
                              | .ok guestLang0 =>
                                let guestLang : Option Lang :=
                                  match guestLang0 with
                                  | some c =>
                                    if decide (0 < c.length)
                                        && (pyLower c != ("null".toList))
                                        && env.langValues.contains (pyLower c) then
                                      some (pyLower c)
                                    else none
                                  | none => none
                                let guestPhone : Str :=
                                  match guestPhone0 with
                                  | some p => if phoneRegMatches p then p else []
                                  | none => []
                                let guestName : Str :=
                                  match guestName0 with
                                  | some n => n
                                  | none => []
                                let r := check_and_resolve_phone_number db.gstore
                                  guestPhone guestName guestLang none
                                let guest := r.1
                                let db1 : DB := { db with gstore := r.2.2 }
                                match stayBlock env hotel reservationData db1
                                    (some guest) pmsGuestId pmsReservationId with
                                | some db2 =>
                                  mergeLoop env hotel rest db2 (some guest) (some pmsGuestId)
                                | none =>
                                  mergeLoop env hotel rest db1 (some guest) (some pmsGuestId)
          | _ => (false, db)  -- GuestId absent or non-string: outside the model's shapes

/-- The header part of `handle_webhook`'s `try` block (lines 106-135): read
`data`, parse its `HotelId` as a UUID, read `Events` and run the fetch loop.
`Except.error` stands for an exception reaching the outermost handler. -/
def handle_webhook_fetch (env : Env) (data : Json) : Except Unit (List Json) :=
  match data.get? ("HotelId".toList) with
  | .error _ => .error ()  -- data is not a dict
  | .ok hid? =>
    match hid? with
    | some (.str s) =>
      match env.parseUUID s with
      | none => .error ()  -- ValueError from UUID(...)
      | some canon =>
        match data.get? ("Events".toList) with
        | .error _ => .error ()
        | .ok events? =>
          match events? with
          | some (.arr events) => fetchEvents env canon events
          | _ => .error ()  -- iterating None or a non-list fails
    | _ => .error ()  -- UUID(None) or UUID(non-string): TypeError

/-- `PMS_Apaleo.handle_webhook(webhook_data)` for the bound `hotel`, running
against the database `db` and the external collaborators `env`.  Returns the
boolean result together with the database as left behind by the call
(the writes made before an unexpected exception persist, there is no
transaction). -/
def handle_webhook (env : Env) (hotel : Hotel) (db : DB)
    (webhook_data : Option CleanedWebhookPayload) : Bool × DB :=
  match webhook_data with
  | none => (false, db)
  | some wd =>
    if wd.hotel_id != hotel.id then (false, db)
    else
      match handle_webhook_fetch env wd.data with
      | .error _ => (false, db)
      | .ok reservationUpdatesList =>
        if reservationUpdatesList.isEmpty then (true, db)
        else mergeLoop env hotel reservationUpdatesList db none none

/-- A `json.loads` built from a finite table of documents and their parses
(used to instantiate the abstract `Env.loads` on concrete scenarios). -/
def tableLoads (table : List (Str × Json)) : Str → Option Json :=
  fun s => (table.find? (fun kv => kv.1 == s)).map (fun kv => kv.2)

/-- The serialized reservation details the mock vendor API returns for one
reservation of the fixture hotel (vendor uuid `u1`). -/
def mkResStr (rid gid status ci co : String) : Str :=
  ("\x7b\x22ReservationId\x22: \x22" ++ rid
    ++ "\x22, \x22HotelId\x22: \x22u1\x22, \x22GuestId\x22: \x22" ++ gid
    ++ "\x22, \x22Status\x22: \x22" ++ status
    ++ "\x22, \x22CheckInDate\x22: \x22" ++ ci
    ++ "\x22, \x22CheckOutDate\x22: \x22" ++ co ++ "\x22\x7d").toList

/-- The parse of `mkResStr` with the same fields. -/
def mkResJson (rid gid status ci co : String) : Json :=
  .obj [(("ReservationId").toList, .str rid.toList),
        (("HotelId").toList, .str (("u1").toList)),
        (("GuestId").toList, .str gid.toList),
        (("Status").toList, .str status.toList),
        (("CheckInDate").toList, .str ci.toList),
        (("CheckOutDate").toList, .str co.toList)]

/-- The serialized guest details the mock vendor API returns. -/
def mkGuestStr (gid phone name country : String) : Str :=
  ("\x7b\x22GuestId\x22: \x22" ++ gid ++ "\x22, \x22Phone\x22: \x22" ++ phone
    ++ "\x22, \x22Name\x22: \x22" ++ name ++ "\x22, \x22Country\x22: \x22"
    ++ country ++ "\x22\x7d").toList

/-- The parse of `mkGuestStr` with the same fields. -/
def mkGuestJson (gid phone name country : String) : Json :=
  .obj [(("GuestId").toList, .str gid.toList),
        (("Phone").toList, .str phone.toList),
        (("Name").toList, .str name.toList),
        (("Country").toList, .str country.toList)]

/-- A `ReservationUpdated` event of the webhook payload. -/
def mkEvent (rid : String) : Json :=
  .obj [(("Name").toList, .str (("ReservationUpdated").toList)),
        (("Value").toList, .obj [(("ReservationId").toList, .str rid.toList)])]

def resStr1 : Str := mkResStr ("R1") ("G1") ("booked") ("2024-01-01") ("2024-01-02")
def resStr2 : Str := mkResStr ("R2") ("G2") ("in_house") ("2024-02-01") ("2024-02-02")
def resStr3 : Str := mkResStr ("R3") ("G3") ("checked_out") ("2024-03-01") ("2024-03-02")
def resJson1 : Json := mkResJson ("R1") ("G1") ("booked") ("2024-01-01") ("2024-01-02")
def resJson2 : Json := mkResJson ("R2") ("G2") ("in_house") ("2024-02-01") ("2024-02-02")
def resJson3 : Json := mkResJson ("R3") ("G3") ("checked_out") ("2024-03-01") ("2024-03-02")
def gStr1 : Str := mkGuestStr ("PG1") ("111") ("Alice") ("DE")
def gStr2 : Str := mkGuestStr ("PG2") ("222") ("Bob") ("EN")
def gStr3 : Str := mkGuestStr ("PG3") ("333") ("Carol") ("ZZ")
def gJson1 : Json := mkGuestJson ("PG1") ("111") ("Alice") ("DE")
def gJson2 : Json := mkGuestJson ("PG2") ("222") ("Bob") ("EN")
def gJson3 : Json := mkGuestJson ("PG3") ("333") ("Carol") ("ZZ")

/-- The fixture `json.loads`: parses exactly the six vendor documents. -/
def fixtureLoads : Str → Option Json :=
  tableLoads [(resStr1, resJson1), (resStr2, resJson2), (resStr3, resJson3),
              (gStr1, gJson1), (gStr2, gJson2), (gStr3, gJson3)]

/-- The fixture `uuid.UUID`: accepts the fixture hotel's vendor id, already in
canonical form. -/
def fixtureParseUUID : Str → Option Str :=
  fun s => if s == (("u1").toList) then some (("u1").toList) else none

/-- The fixture `strptime`: parses the six dates of the fixture documents. -/
def fixtureParseDate : Str → Option Date :=
  fun s =>
    if s == (("2024-01-01").toList) then some ⟨2024, 1, 1⟩ else
    if s == (("2024-01-02").toList) then some ⟨2024, 1, 2⟩ else
    if s == (("2024-02-01").toList) then some ⟨2024, 2, 1⟩ else
    if s == (("2024-02-02").toList) then some ⟨2024, 2, 2⟩ else
    if s == (("2024-03-01").toList) then some ⟨2024, 3, 1⟩ else
    if s == (("2024-03-02").toList) then some ⟨2024, 3, 2⟩ else none

/-- The fixture `Language.values`. -/
def fixtureLangValues : List Str :=
  [("de").toList, ("en").toList, ("fr").toList, ("nl").toList]

/-- `get_reservation_details` responses of the fixture vendor. -/
def resLookup (param : Str) : Except Unit Str :=
  if param == (("R1").toList) then .ok resStr1 else
  if param == (("R2").toList) then .ok resStr2 else
  if param == (("R3").toList) then .ok resStr3 else .error ()

/-- `get_guest_details` responses of the fixture vendor. -/
def guestLookup (param : Str) : Except Unit Str :=
  if param == (("G1").toList) then .ok gStr1 else
  if param == (("G2").toList) then .ok gStr2 else
  if param == (("G3").toList) then .ok gStr3 else .error ()

/-- A vendor API that answers every attempt successfully. -/
def oracleAllOk : Endpoint → Str → Nat → Except Unit Str :=
  fun ep param _ =>
    match ep with
    | .reservationDetails => resLookup param
    | .guestDetails => guestLookup param

/-- A vendor API on which every fetch of guest `G2`'s details raises
`APIError`, on every attempt; everything else succeeds. -/
def oracleGuest2Fails : Endpoint → Str → Nat → Except Unit Str :=
  fun ep param _ =>
    match ep with
    | .reservationDetails => resLookup param
    | .guestDetails =>
      if param == (("G2").toList) then .error () else guestLookup param

/-- A vendor API on which every guest-details fetch raises `APIError`. -/
def oracleGuestsFail : Endpoint → Str → Nat → Except Unit Str :=
  fun ep param _ =>
    match ep with
    | .reservationDetails => resLookup param
    | .guestDetails => .error ()

/-- A vendor API on which fetching `R1`'s details raises `APIError` on the
first two attempts and succeeds from the third on, while fetching `R2`'s
details raises `APIError` on every attempt; guest fetches succeed. -/
def oracleRetryThenFail : Endpoint → Str → Nat → Except Unit Str :=
  fun ep param attempt =>
    match ep with
    | .reservationDetails =>
      if param == (("R1").toList) then
        if attempt < 2 then .error () else resLookup param
      else .error ()
    | .guestDetails => guestLookup param

/-- The fixture environment around a given vendor API behaviour. -/
def mkEnv (o : Endpoint → Str → Nat → Except Unit Str) : Env :=
  { loads := fixtureLoads, parseUUID := fixtureParseUUID,
    parseDate := fixtureParseDate, langValues := fixtureLangValues, oracle := o }

/-- The fixture hotel: local id 1, vendor uuid `u1`. -/
def hotel1 : Hotel := ⟨1, ("u1").toList⟩

/-- The empty database. -/
def db0 : DB := ⟨⟨[], 0⟩, [], 0⟩

/-- A webhook payload with two `ReservationUpdated` events, `R1` and `R2`. -/
def payloadData2 : Json :=
  .obj [(("HotelId").toList, .str (("u1").toList)),
        (("Events").toList, .arr [mkEvent ("R1"), mkEvent ("R2")])]

/-- A webhook payload with three `ReservationUpdated` events. -/
def payloadData3 : Json :=
  .obj [(("HotelId").toList, .str (("u1").toList)),
        (("Events").toList, .arr [mkEvent ("R1"), mkEvent ("R2"), mkEvent ("R3")])]

/-- The cleaned two-event payload for the fixture hotel. -/
def wd2 : CleanedWebhookPayload := ⟨1, payloadData2⟩

/-- The cleaned three-event payload for the fixture hotel. -/
def wd3 : CleanedWebhookPayload := ⟨1, payloadData3⟩

/-- No two guests of the list share a phone. -/
def noDupPhones : List Guest → Bool
  | [] => true
  | g :: gs => gs.all (fun h => h.phone != g.phone) && noDupPhones gs

set_option maxRecDepth 10000

/-- A guest store with two pairwise distinct phones, the second already
carrying one disambiguation suffix. -/
def storeD : GuestStore :=
  ⟨[⟨0, ("a").toList, ("p").toList, none⟩,
    ⟨1, ("b").toList, ("p_-1").toList, none⟩], 2⟩

/-- A guest store whose only guest holds a phone that itself contains the
disambiguation suffix. -/
def storeA : GuestStore := ⟨[⟨0, ("alice").toList, ("7_-1").toList, none⟩], 1⟩

/-- Two guests share phone `p`; the one matching the candidate's identity
comes first in lookup order. -/
def storeMatchFirst : GuestStore :=
  ⟨[⟨0, ("n").toList, ("p").toList, none⟩,
    ⟨1, ("x").toList, ("p").toList, none⟩], 2⟩

/-- Two guests share phone `p`; the one conflicting with the candidate's
identity comes first in lookup order. -/
def storeDifferFirst : GuestStore :=
  ⟨[⟨0, ("x").toList, ("p").toList, none⟩,
    ⟨1, ("n").toList, ("p").toList, none⟩], 2⟩

/-- Claim C1: the claim says a reservation whose guest step fails is skipped —
no Stay row for its reservation id, no Stay with a missing or wrong guest —
while the rest of the batch is processed.  The code does neither: its
`continue` is commented out, so when `R2`'s guest fetch exhausts its retries
the loop falls through and upserts a Stay for `R2` that references `R1`'s
guest (guest id 0, vendor guest `PG1`); and when the *first* reservation's
guest fetch fails, the handler's print of the still-unbound `pmsGuestId`
raises `NameError`, the whole call returns false and the sibling `R2` is never
processed. -/
theorem guest_fetch_failure_falls_through :
    ((handle_webhook (mkEnv oracleGuest2Fails) hotel1 db0 (some wd2)).1 = true
      ∧ (handle_webhook (mkEnv oracleGuest2Fails) hotel1 db0 (some wd2)).2.stays.map
          (fun st => (st.pms_reservation_id, st.guest_id, st.pms_guest_id))
        = [(some (("R1").toList), 0, some (("PG1").toList)),
           (some (("R2").toList), 0, some (("PG1").toList))])
  ∧ handle_webhook (mkEnv oracleGuestsFail) hotel1 db0 (some wd2) = (false, db0) := by
  decide

/-- Claim C2: a webhook with three `ReservationUpdated` events for distinct
reservations and distinct guests (distinct phones) creates exactly three Stay
rows and exactly three Guest rows, and the pipeline is idempotent: a second
run on the identical payload with identical vendor responses returns true and
leaves the database exactly as the first run did (the Stays keyed by
`pms_reservation_id` are overwritten with equal field values and the Guests
are returned unchanged). -/
theorem webhook_three_reservations_idempotent :
    (handle_webhook (mkEnv oracleAllOk) hotel1 db0 (some wd3)).1 = true
  ∧ (handle_webhook (mkEnv oracleAllOk) hotel1 db0 (some wd3)).2.gstore.guests.length = 3
  ∧ (handle_webhook (mkEnv oracleAllOk) hotel1 db0 (some wd3)).2.stays.length = 3
  ∧ noDupPhones (handle_webhook (mkEnv oracleAllOk) hotel1 db0 (some wd3)).2.gstore.guests = true
  ∧ handle_webhook (mkEnv oracleAllOk) hotel1
      (handle_webhook (mkEnv oracleAllOk) hotel1 db0 (some wd3)).2 (some wd3)
      = (true, (handle_webhook (mkEnv oracleAllOk) hotel1 db0 (some wd3)).2) := by
  decide

/-- Claim C4: the claim says phone uniqueness is preserved by every resolver
call.  It is not: on a store with pairwise distinct phones `p` and `p_-1`, a
candidate conflicting with both relocates only the *second* conflicting guest
(the relocation id is overwritten at each recursive step) and then creates a
new guest whose phone has every `"_-1"` stripped, i.e. `p` — which the first
guest still holds, so two rows end up with phone `p`. -/
theorem phone_uniqueness_violated_by_repeated_conflict :
    noDupPhones storeD.guests = true
  ∧ noDupPhones (check_and_resolve_phone_number storeD
      (("p").toList) (("c").toList) none none).2.2.guests = false := by
  decide

/-- Claim C3 counterexample: (a) `storeA` holds a guest with phone `7_-1`
whose name differs from the candidate's and holds nobody at the suffixed
phone, yet the guest returned by the resolver does not carry the original
phone `7_-1` (it carries `7`: the `replace` strips *every* suffix
occurrence); (b) `storeMatchFirst` also satisfies the claim's hypotheses —
it contains a guest with phone `p` and a different name, and nobody at
`p_-1` — yet the call performs no write at all, because the lookup returns
the *other*, identity-matching guest with phone `p`. -/
theorem relocation_claim_counterexample :
    ((storeA.guests.any (fun g => g.phone == ("7_-1").toList
        && (pyLower (pyStrip g.name) != pyLower (pyStrip (("bob").toList))))) = true
  ∧ (storeA.guests.all (fun g =>
        g.phone != (("7_-1").toList ++ DUPLICATE_PHONE_SUFFIX))) = true
  ∧ (check_and_resolve_phone_number storeA
        (("7_-1").toList) (("bob").toList) none none).1.phone ≠ ("7_-1").toList)
  ∧ ((storeMatchFirst.guests.any (fun g => g.phone == ("p").toList
        && (pyLower (pyStrip g.name) != pyLower (pyStrip (("n").toList))))) = true
  ∧ (storeMatchFirst.guests.all (fun g =>
        g.phone != (("p").toList ++ DUPLICATE_PHONE_SUFFIX))) = true
  ∧ (check_and_resolve_phone_number storeMatchFirst
        (("p").toList) (("n").toList) none none).2.2 = storeMatchFirst) := by
  decide

/-- Claim C6 counterexample: `storeDifferFirst` contains a guest (id 1) whose
phone `p`, trimmed case-insensitive name and language all equal the
candidate's, yet resolving `(p, n, none)` is not write-free: the lookup finds
the *conflicting* guest that shares phone `p`, relocates it and creates a new
row, so the store changes. -/
theorem same_identity_claim_counterexample :
    (storeDifferFirst.guests.any (fun g => g.phone == ("p").toList
        && (pyLower (pyStrip g.name) == pyLower (pyStrip (("n").toList)))
        && g.language == (none : Option Lang))) = true
  ∧ (check_and_resolve_phone_number storeDifferFirst
        (("p").toList) (("n").toList) none none).2.2 ≠ storeDifferFirst := by
  decide

/-- Claim C5: the phone resolver's recursion is bounded on every finite guest
store: the fuelled recursion never runs out when given fuel exceeding the
largest stored phone length (each recursive call strictly grows the phone by
the suffix, and a phone longer than every stored phone cannot be found, so the
next step returns), and at fuel `maxPhoneLen + 2` it computes exactly
`check_and_resolve_phone_number`. -/
theorem resolver_recursion_depth_bounded :
    (∀ (fuel : Nat) (store : GuestStore) (phone name : Str) (lang : Option Lang)
        (gid : Option Nat),
      1 ≤ fuel → maxPhoneLen store.guests + 2 ≤ fuel + phone.length →
      (resolveFuel fuel store phone name lang gid).isSome = true)
  ∧ (∀ (store : GuestStore) (phone name : Str) (lang : Option Lang) (gid : Option Nat),
      resolveFuel (maxPhoneLen store.guests + 2) store phone name lang gid
        = some (check_and_resolve_phone_number store phone name lang gid)) :=
  ⟨resolveFuel_isSome, check_eq_resolveFuel⟩

/-- Witness for C5 at a concrete store, fuel and phone. -/
theorem resolver_recursion_depth_bounded_witness :
    (resolveFuel 2 ⟨[], 0⟩ [] [] none none).isSome = true :=
  resolver_recursion_depth_bounded.1 2 ⟨[], 0⟩ [] [] none none (by decide) (by decide)

/-- Claim C9: a cleaned payload whose `hotel_id` differs from the bound
hotel's id makes `handle_webhook` return false immediately, with the database
returned unchanged and for every environment whatsoever — in particular the
result does not depend on the vendor API, so no API call is observable. -/
theorem webhook_hotel_mismatch_rejected (env : Env) (hotel : Hotel) (db : DB)
    (wd : CleanedWebhookPayload) (h : wd.hotel_id ≠ hotel.id) :
    handle_webhook env hotel db (some wd) = (false, db) := by
  have hb : (wd.hotel_id != hotel.id) = true := by
    simpa using h
  simp [handle_webhook, hb]

/-- The environment with no external behaviour at all. -/
def envTrivial : Env :=
  { loads := fun _ => none, parseUUID := fun _ => none, parseDate := fun _ => none,
    langValues := [], oracle := fun _ _ _ => .error () }

/-- Witness for C9 on a concrete mismatching payload. -/
theorem webhook_hotel_mismatch_rejected_witness :
    handle_webhook envTrivial hotel1 db0 (some ⟨2, Json.null⟩) = (false, db0) :=
  webhook_hotel_mismatch_rejected envTrivial hotel1 db0 ⟨2, Json.null⟩ (by decide)

/-- Claim C6 (amended): when the store's phone lookup for `P` finds a guest
whose trimmed case-insensitive name and language equal the candidate's, the
resolver returns exactly that guest with result code `RESULTS["none"]` and the
store unchanged — zero writes. -/
theorem resolver_same_identity_zero_writes (store : GuestStore) (g : Guest)
    (P N : Str) (L : Option Lang) (gid : Option Nat)
    (hfind : store.guests.find? (fun x => x.phone == P) = some g)
    (hname : pyLower (pyStrip g.name) = pyLower (pyStrip N))
    (hlang : g.language = L) :
    check_and_resolve_phone_number store P N L gid = (g, RESULT_NONE, store) := by
  have hcond : ((pyLower (pyStrip g.name) != pyLower (pyStrip N))
      || (g.language != L)) = false := by
    simp [hname, hlang]
  have e : resolveFuel (maxPhoneLen store.guests + 1 + 1) store P N L gid
      = some (g, RESULT_NONE, store) := by
    simp only [resolveFuel, hfind, hcond]
    rfl
  have h := check_eq_resolveFuel store P N L gid
  rw [show maxPhoneLen store.guests + 2 = maxPhoneLen store.guests + 1 + 1 from by omega,
    e] at h
  exact (Option.some_inj.mp h).symm

/-- Witness for the amended C6 at a concrete store (name matching up to case). -/
theorem resolver_same_identity_zero_writes_witness :
    check_and_resolve_phone_number ⟨[⟨0, ("Ann").toList, ("55").toList, none⟩], 1⟩
        (("55").toList) (("ann").toList) none none
      = (⟨0, ("Ann").toList, ("55").toList, none⟩, RESULT_NONE,
         ⟨[⟨0, ("Ann").toList, ("55").toList, none⟩], 1⟩) :=
  resolver_same_identity_zero_writes ⟨[⟨0, ("Ann").toList, ("55").toList, none⟩], 1⟩
    ⟨0, ("Ann").toList, ("55").toList, none⟩ (("55").toList) (("ann").toList) none none
    (by decide) (by decide) (by decide)

/-- Claim C3 (amended): when the store's phone lookup for `P` finds a guest
whose trimmed case-insensitive name or language differs from the candidate's,
the lookup for `P ++ "_-1"` finds nothing, and `P` itself contains no
occurrence of `"_-1"`: resolving `(P, N2, L2)` relocates the found guest's
phone to `P ++ "_-1"` and creates and returns a brand-new guest holding the
original phone `P` with name `N2` and language `L2` — afterwards both records
exist with swapped phone values. -/
theorem resolver_conflict_relocates (store : GuestStore) (g : Guest) (P N2 : Str)
    (L2 : Option Lang)
    (hfind : store.guests.find? (fun x => x.phone == P) = some g)
    (hdiff : ((pyLower (pyStrip g.name) != pyLower (pyStrip N2))
        || (g.language != L2)) = true)
    (hfind2 : store.guests.find? (fun x =>
        x.phone == (P ++ DUPLICATE_PHONE_SUFFIX)) = none)
    (hclean : containsL DUPLICATE_PHONE_SUFFIX P = false) :
    check_and_resolve_phone_number store P N2 L2 none
      = (⟨store.nextId, N2, P, L2⟩, RESULT_UPDATE,
         ⟨(store.guests.map (fun x =>
             if x.id == g.id then { x with phone := P ++ DUPLICATE_PHONE_SUFFIX }
             else x))
           ++ [⟨store.nextId, N2, P, L2⟩], store.nextId + 1⟩) := by
  have e : resolveFuel (maxPhoneLen store.guests + 1 + 1) store P N2 L2 none
      = some (⟨store.nextId, N2, P, L2⟩, RESULT_UPDATE,
         ⟨(store.guests.map (fun x =>
             if x.id == g.id then { x with phone := P ++ DUPLICATE_PHONE_SUFFIX }
             else x))
           ++ [⟨store.nextId, N2, P, L2⟩], store.nextId + 1⟩) := by
    simp only [resolveFuel, hfind]
    rw [if_pos hdiff, if_neg (by decide)]
    simp only [resolveFuel, hfind2]
    rw [if_pos (by decide)]
    rw [stripSfx_append P hclean]
  have h := check_eq_resolveFuel store P N2 L2 none
  rw [show maxPhoneLen store.guests + 2 = maxPhoneLen store.guests + 1 + 1 from by omega,
    e] at h
  exact (Option.some_inj.mp h).symm

/-- Witness for the amended C3 at a concrete one-guest store. -/
theorem resolver_conflict_relocates_witness :
    check_and_resolve_phone_number ⟨[⟨0, ("alice").toList, ("123").toList, none⟩], 1⟩
        (("123").toList) (("bob").toList) none none
      = (⟨1, ("bob").toList, ("123").toList, none⟩, RESULT_UPDATE,
         ⟨[⟨0, ("alice").toList, ("123_-1").toList, none⟩,
           ⟨1, ("bob").toList, ("123").toList, none⟩], 2⟩) := by
  have h := resolver_conflict_relocates
    ⟨[⟨0, ("alice").toList, ("123").toList, none⟩], 1⟩
    ⟨0, ("alice").toList, ("123").toList, none⟩
    (("123").toList) (("bob").toList) none
    (by decide) (by decide) (by decide) (by decide)
  exact h.trans (by decide)

/-- Claim C7: with retry budget `RETRY = 3`, a vendor fetch that raises on the
first two attempts and succeeds on the third yields the successful result; a
fetch that raises on every attempt propagates the error.  On the pipeline:
`R1`'s detail fetch fails twice then succeeds and `R1` is fully processed,
while `R2`'s detail fetch fails on every attempt and only `R2` is skipped —
the call still returns true with `R1`'s Stay and guest written. -/
theorem retry_budget_and_per_item_skip :
    (∀ (oracle : Endpoint → Str → Nat → Except Unit Str) (ep : Endpoint)
        (param : Str) (w : Nat) (s : Str),
      oracle ep param 0 = .error () → oracle ep param 1 = .error () →
      oracle ep param 2 = .ok s →
      api_call_retry oracle ep param 0 RETRY w = .ok s)
  ∧ (∀ (oracle : Endpoint → Str → Nat → Except Unit Str) (ep : Endpoint)
        (param : Str) (w : Nat),
      (∀ n, oracle ep param n = .error ()) →
      api_call_retry oracle ep param 0 RETRY w = .error ())
  ∧ ((handle_webhook (mkEnv oracleRetryThenFail) hotel1 db0 (some wd2)).1 = true
  ∧ (handle_webhook (mkEnv oracleRetryThenFail) hotel1 db0 (some wd2)).2.stays.map
        (fun st => st.pms_reservation_id) = [some (("R1").toList)]
  ∧ (handle_webhook (mkEnv oracleRetryThenFail) hotel1 db0 (some wd2)).2.gstore.guests.length
      = 1) := by
  refine ⟨?_, ?_, ?_⟩
  · intro oracle ep param w s h0 h1 h2
    simp only [RETRY, api_call_retry, h0, h1, h2]
  · intro oracle ep param w hall
    simp only [RETRY, api_call_retry, hall]
  · decide

/-- A vendor API failing on the first two attempts of every call and
succeeding afterwards. -/
def oracleFailFailOk : Endpoint → Str → Nat → Except Unit Str :=
  fun _ _ attempt => if attempt < 2 then .error () else .ok (("ok").toList)

/-- Witness for C7's two retry facts at concrete oracles. -/
theorem retry_budget_and_per_item_skip_witness :
    api_call_retry oracleFailFailOk .reservationDetails (("r").toList) 0 RETRY 1
      = .ok (("ok").toList)
  ∧ api_call_retry envTrivial.oracle .guestDetails (("g").toList) 0 RETRY 1
      = .error () :=
  ⟨retry_budget_and_per_item_skip.1 oracleFailFailOk .reservationDetails
      (("r").toList) 1 (("ok").toList) rfl rfl rfl,
   retry_budget_and_per_item_skip.2.1 envTrivial.oracle .guestDetails
      (("g").toList) 1 (fun _ => rfl)⟩

lemma clean_none_of_short (env : Env) (hotels : List Hotel) (s : Str)
    (h1 : s.length ≤ 2) : clean_webhook_payload env hotels (some s) = none := by
  simp only [clean_webhook_payload]
  rw [if_pos h1]

lemma clean_none_of_not_contains (env : Env) (hotels : List Hotel) (s : Str)
    (h2 : containsL (("HotelId").toList) s = false) :
    clean_webhook_payload env hotels (some s) = none := by
  simp only [clean_webhook_payload]
  by_cases h1 : s.length ≤ 2
  · rw [if_pos h1]
  · rw [if_neg h1, if_pos (by simpa using h2)]

lemma clean_split (env : Env) (hotels : List Hotel) (s : Str)
    (h1 : ¬ s.length ≤ 2) (h2 : containsL (("HotelId").toList) s = true) :
    clean_webhook_payload env hotels (some s)
      = clean_webhook_payload_body env hotels s := by
  simp only [clean_webhook_payload]
  rw [if_neg h1, if_neg (by simpa using h2)]

lemma clean_none_of_body_none (env : Env) (hotels : List Hotel) (s : Str)
    (hb : clean_webhook_payload_body env hotels s = none) :
    clean_webhook_payload env hotels (some s) = none := by
  by_cases h1 : s.length ≤ 2
  · exact clean_none_of_short env hotels s h1
  · by_cases h2 : containsL (("HotelId").toList) s = true
    · rw [clean_split env hotels s h1 h2]; exact hb
    · exact clean_none_of_not_contains env hotels s (by simpa using h2)

lemma clean_body_none_loads (env : Env) (hotels : List Hotel) (s : Str)
    (h : env.loads s = none) : clean_webhook_payload_body env hotels s = none := by
  simp only [clean_webhook_payload_body, h]

lemma clean_body_none_nofield (env : Env) (hotels : List Hotel) (s : Str) (j : Json)
    (hl : env.loads s = some j)
    (hf : ∀ u : Str, j.get? (("HotelId").toList) ≠ .ok (some (.str u))) :
    clean_webhook_payload_body env hotels s = none := by
  simp only [clean_webhook_payload_body, hl]
  cases hg : j.get? (("HotelId").toList) with
  | error e => rfl
  | ok o =>
    cases o with
    | none => rfl
    | some jv =>
      cases jv with
      | null => rfl
      | bool b => rfl
      | num n => rfl
      | str u => exact absurd hg (hf u)
      | arr a => rfl
      | obj f => rfl

lemma clean_body_none_uuid (env : Env) (hotels : List Hotel) (s u : Str) (j : Json)
    (hl : env.loads s = some j)
    (hf : j.get? (("HotelId").toList) = .ok (some (.str u)))
    (hu : env.parseUUID u = none) :
    clean_webhook_payload_body env hotels s = none := by
  simp only [clean_webhook_payload_body, hl, hf, hu]

lemma clean_body_none_hotel (env : Env) (hotels : List Hotel) (s u c : Str) (j : Json)
    (hl : env.loads s = some j)
    (hf : j.get? (("HotelId").toList) = .ok (some (.str u)))
    (hu : env.parseUUID u = some c)
    (hh : hotels.find? (fun hh => hh.pms_hotel_id == c) = none) :
    clean_webhook_payload_body env hotels s = none := by
  simp only [clean_webhook_payload_body, hl, hf, hu, hh]

lemma clean_body_some (env : Env) (hotels : List Hotel) (s u c : Str) (j : Json)
    (h : Hotel) (hl : env.loads s = some j)
    (hf : j.get? (("HotelId").toList) = .ok (some (.str u)))
    (hu : env.parseUUID u = some c)
    (hh : hotels.find? (fun hh => hh.pms_hotel_id == c) = some h) :
    clean_webhook_payload_body env hotels s = some { hotel_id := h.id, data := j } := by
  simp only [clean_webhook_payload_body, hl, hf, hu, hh]

/-- Claim C8: `clean_webhook_payload` returns none — never an exception — for
an absent payload, a payload of at most two characters, a payload whose raw
text lacks `"HotelId"`, a payload that does not parse as JSON, a parse whose
`HotelId` field is absent or not a string, a `HotelId` that is not a valid
UUID, and a UUID with no matching local Hotel; and on every remaining input it
returns the matched hotel's local id together with the full parsed JSON object
unmodified (the hotel-identifier field still present). -/
theorem clean_webhook_payload_cases (env : Env) (hotels : List Hotel) :
    (clean_webhook_payload env hotels none = none)
  ∧ (∀ s : Str, s.length ≤ 2 → clean_webhook_payload env hotels (some s) = none)
  ∧ (∀ s : Str, containsL (("HotelId").toList) s = false →
      clean_webhook_payload env hotels (some s) = none)
  ∧ (∀ s : Str, env.loads s = none → clean_webhook_payload env hotels (some s) = none)
  ∧ (∀ (s : Str) (j : Json), env.loads s = some j →
      (∀ u : Str, j.get? (("HotelId").toList) ≠ .ok (some (.str u))) →
      clean_webhook_payload env hotels (some s) = none)
  ∧ (∀ (s u : Str) (j : Json), env.loads s = some j →
      j.get? (("HotelId").toList) = .ok (some (.str u)) → env.parseUUID u = none →
      clean_webhook_payload env hotels (some s) = none)
  ∧ (∀ (s u c : Str) (j : Json), env.loads s = some j →
      j.get? (("HotelId").toList) = .ok (some (.str u)) → env.parseUUID u = some c →
      hotels.find? (fun hh => hh.pms_hotel_id == c) = none →
      clean_webhook_payload env hotels (some s) = none)
  ∧ (∀ (s u c : Str) (j : Json) (h : Hotel), 2 < s.length →
      containsL (("HotelId").toList) s = true → env.loads s = some j →
      j.get? (("HotelId").toList) = .ok (some (.str u)) → env.parseUUID u = some c →
      hotels.find? (fun hh => hh.pms_hotel_id == c) = some h →
      clean_webhook_payload env hotels (some s) = some { hotel_id := h.id, data := j }) := by
  refine ⟨rfl, fun s h => clean_none_of_short env hotels s h,
    fun s h => clean_none_of_not_contains env hotels s h, ?_, ?_, ?_, ?_, ?_⟩
  · intro s hl
    exact clean_none_of_body_none env hotels s (clean_body_none_loads env hotels s hl)
  · intro s j hl hf
    exact clean_none_of_body_none env hotels s
      (clean_body_none_nofield env hotels s j hl hf)
  · intro s u j hl hf hu
    exact clean_none_of_body_none env hotels s
      (clean_body_none_uuid env hotels s u j hl hf hu)
  · intro s u c j hl hf hu hh
    exact clean_none_of_body_none env hotels s
      (clean_body_none_hotel env hotels s u c j hl hf hu hh)
  · intro s u c j h hlen hcont hl hf hu hh
    rw [clean_split env hotels s (by omega) hcont]
    exact clean_body_some env hotels s u c j h hl hf hu hh

/-- Claim C10: the two raw-text pre-checks of `clean_webhook_payload` run
before any JSON parsing — every payload of length at most two is rejected (in
particular the well-formed JSON document consisting of an opening and a
closing brace), every payload whose raw text does not contain the literal
substring `"HotelId"` is rejected, and every payload that passes both
pre-checks is handed unchanged to the JSON-parsing body. -/
theorem clean_webhook_payload_raw_precheck (env : Env) (hotels : List Hotel) :
    (∀ s : Str, s.length ≤ 2 → clean_webhook_payload env hotels (some s) = none)
  ∧ clean_webhook_payload env hotels (some (("\x7b\x7d").toList)) = none
  ∧ (∀ s : Str, containsL (("HotelId").toList) s = false →
      clean_webhook_payload env hotels (some s) = none)
  ∧ (∀ s : Str, 2 < s.length → containsL (("HotelId").toList) s = true →
      clean_webhook_payload env hotels (some s)
        = clean_webhook_payload_body env hotels s) :=
  ⟨fun s h => clean_none_of_short env hotels s h,
   clean_none_of_short env hotels (("\x7b\x7d").toList) (by decide),
   fun s h => clean_none_of_not_contains env hotels s h,
   fun s h1 h2 => clean_split env hotels s (by omega) h2⟩

def objNoField : Json := Json.obj []
def objBadUuid : Json := Json.obj [(("HotelId").toList, Json.str (("bad").toList))]
def objOtherHotel : Json := Json.obj [(("HotelId").toList, Json.str (("u9").toList))]
def objGoodHotel : Json := Json.obj [(("HotelId").toList, Json.str (("u1").toList))]
def s5 : Str := ("j5HotelId").toList
def s6 : Str := ("j6HotelId").toList
def s7 : Str := ("j7HotelId").toList
def s8 : Str := ("j8HotelId").toList

/-- A fixture environment for the payload-normaliser witnesses: four raw
documents with their parses, two known UUIDs. -/
def env8 : Env :=
  { loads := tableLoads
      [(s5, objNoField), (s6, objBadUuid), (s7, objOtherHotel), (s8, objGoodHotel)],
    parseUUID := fun s =>
      if s == (("u1").toList) then some (("u1").toList)
      else if s == (("u9").toList) then some (("u9").toList) else none,
    parseDate := fun _ => none, langValues := [],
    oracle := fun _ _ _ => .error () }

/-- The hotel table for the payload-normaliser witnesses. -/
def hotels8 : List Hotel := [⟨7, ("u1").toList⟩]

/-- Witness for C8: one concrete payload per branch of the case analysis. -/
theorem clean_webhook_payload_cases_witness :
    clean_webhook_payload env8 hotels8 (some (("ab").toList)) = none
  ∧ clean_webhook_payload env8 hotels8 (some (("no marker here").toList)) = none
  ∧ clean_webhook_payload env8 hotels8 (some (("zzHotelIdzz").toList)) = none
  ∧ clean_webhook_payload env8 hotels8 (some s5) = none
  ∧ clean_webhook_payload env8 hotels8 (some s6) = none
  ∧ clean_webhook_payload env8 hotels8 (some s7) = none
  ∧ clean_webhook_payload env8 hotels8 (some s8)
      = some { hotel_id := 7, data := objGoodHotel } :=
  ⟨(clean_webhook_payload_cases env8 hotels8).2.1 (("ab").toList) (by decide),
   (clean_webhook_payload_cases env8 hotels8).2.2.1 (("no marker here").toList) (by decide),
   (clean_webhook_payload_cases env8 hotels8).2.2.2.1 (("zzHotelIdzz").toList) rfl,
   (clean_webhook_payload_cases env8 hotels8).2.2.2.2.1 s5 objNoField rfl
     (by intro u h; simp [Json.get?, objNoField] at h),
   (clean_webhook_payload_cases env8 hotels8).2.2.2.2.2.1 s6 (("bad").toList)
     objBadUuid rfl rfl rfl,
   (clean_webhook_payload_cases env8 hotels8).2.2.2.2.2.2.1 s7 (("u9").toList)
     (("u9").toList) objOtherHotel rfl rfl rfl rfl,
   (clean_webhook_payload_cases env8 hotels8).2.2.2.2.2.2.2 s8 (("u1").toList)
     (("u1").toList) objGoodHotel ⟨7, ("u1").toList⟩ (by decide) (by decide)
     rfl rfl rfl rfl⟩

/-- Witness for C10 at concrete payloads. -/
theorem clean_webhook_payload_raw_precheck_witness :
    clean_webhook_payload env8 hotels8 (some (("\x7b\x7d").toList)) = none
  ∧ clean_webhook_payload env8 hotels8 (some (("nope").toList)) = none
  ∧ clean_webhook_payload env8 hotels8 (some s8)
      = clean_webhook_payload_body env8 hotels8 s8 :=
  ⟨(clean_webhook_payload_raw_precheck env8 hotels8).1 (("\x7b\x7d").toList) (by decide),
   (clean_webhook_payload_raw_precheck env8 hotels8).2.2.1 (("nope").toList) (by decide),
   (clean_webhook_payload_raw_precheck env8 hotels8).2.2.2 s8 (by decide) (by decide)⟩
